import Mathlib

/-!
Shallow embedding of the sprite-atlas particle system of `src/shmup/app.py`
(the atlas loader also appears in `src/demos/glslatlas.py`).

Modelling conventions:
* Python floats are modelled as exact rationals (`ℚ`).
* `random()` / `randint(a, b)` draws are modelled by an oracle stream
  `List ℚ`: each call consumes the head of the stream (default `0` when the
  stream is exhausted).  No range constraint is imposed on drawn values;
  where a theorem needs the `randint(1, 3)` range of `Star.plane` it takes
  it as an explicit hypothesis.
* `math.hypot(a, b) < c` is modelled as `a ^ 2 + b ^ 2 < c ^ 2`, which is
  equivalent for `c ≥ 0` under exact arithmetic.
* A Python `dict` (insertion ordered) is modelled as an association list;
  `dict.popitem()` pops the most recently inserted entry, i.e. the last
  element; on an empty dict it raises `KeyError`, modelled by `Option.none`.
* List slice assignment `vertices[i:i+3] = (x, y, size)` is modelled with
  `List.set`; the two agree whenever the indices are in bounds, which the
  buffer-length hypotheses of the theorems below guarantee.
* The texture object returned by the Kivy `Image` collaborator is external;
  `load_atlas` takes the texture's pixel size `(tex_width, tex_height)` as a
  parameter and returns the texture name instead of the texture handle.
-/

namespace Shmup

/-- Value holder for sprites, field order as in the source named tuple:
`u0 v0` top-left UV corner, `u1 v1` bottom-right UV corner, `su`/`sv` half
width/height in pixels. -/
structure UVMapping where
  u0 : ℚ
  v0 : ℚ
  u1 : ℚ
  v1 : ℚ
  su : ℚ
  sv : ℚ
deriving DecidableEq, Repr

/-- Body of the `load_atlas` loop: from a sprite pixel rect `(x0, y0, w, h)`
and the texture pixel size, build the `UVMapping` exactly as the source does:
`UVMapping(x0 / tex_width, 1 - y1 / tex_height, x1 / tex_width,
1 - y0 / tex_height, 0.5 * w, 0.5 * h)` with `x1 = x0 + w`, `y1 = y0 + h`. -/
def atlas_uv (tex_width tex_height : ℚ) (val : ℚ × ℚ × ℚ × ℚ) : UVMapping :=
  let x0 := val.1
  let y0 := val.2.1
  let w := val.2.2.1
  let h := val.2.2.2
  let x1 := x0 + w
  let y1 := y0 + h
  ⟨x0 / tex_width, 1 - y1 / tex_height,
   x1 / tex_width, 1 - y0 / tex_height,
   0.5 * w, 0.5 * h⟩

/-- `load_atlas`: `atlas.popitem()` takes the last-inserted top-level entry
(`none` on an empty manifest, where CPython raises `KeyError`); every sprite
rect of that entry is mapped through `atlas_uv` with no validation of any
kind.  Extra top-level entries are silently ignored. -/
def load_atlas (atlas : List (String × List (String × (ℚ × ℚ × ℚ × ℚ))))
    (tex_size : ℚ × ℚ) : Option (String × List (String × UVMapping)) :=
  match atlas.getLast? with
  | none => none
  | some (tex_name, mapping) =>
      some (tex_name,
        mapping.map (fun nv => (nv.1, atlas_uv tex_size.1 tex_size.2 nv.2)))

/-- One slice-assignment step `vertices[i:i+3] = (x, y, s)` (in-bounds case),
as three `List.set` writes. -/
def set3 (buf : List ℚ) (i : ℕ) (x y s : ℚ) : List ℚ :=
  ((buf.set i x).set (i + 1) y).set (i + 2) s

/-- `Particle.update`: write `(x, y, size)` into the first three scalars of
each of the particle's 4 vertex records, i.e. at offsets `base + 7*k`,
`k = 0..3` (`vsize = 7`, `base = base_i = 4 * i * vsize`). -/
def particle_update (buf : List ℚ) (base : ℕ) (x y s : ℚ) : List ℚ :=
  set3 (set3 (set3 (set3 buf base x y s) (base + 7) x y s)
    (base + 14) x y s) (base + 21) x y s

/-- The 28 scalars `make_particles` appends for one quad: 4 vertex records
`(center.x, center.y, scale, offset.x, offset.y, u, v)`. -/
def quad_vertices (uv : UVMapping) : List ℚ :=
  [0, 0, 1, -uv.su, -uv.sv, uv.u0, uv.v1,
   0, 0, 1, uv.su, -uv.sv, uv.u1, uv.v1,
   0, 0, 1, uv.su, uv.sv, uv.u1, uv.v0,
   0, 0, 1, -uv.su, uv.sv, uv.u0, uv.v0]

/-- The 6 triangle indices `make_particles` appends for the quad of particle
ordinal `i`: `(j, j+1, j+2, j+2, j+3, j)` with base vertex `j = 4*i`. -/
def quad_indices (i : ℕ) : List ℕ :=
  [4 * i, 4 * i + 1, 4 * i + 2, 4 * i + 2, 4 * i + 3, 4 * i]

/-- The loop of `PSWidget.make_particles`: `for i in range(count, count+num)`
append `quad_indices i` to the index array and `quad_vertices uv` to the
vertex array. -/
def make_particles_aux (uv : UVMapping) :
    ℕ → ℕ → List ℚ → List ℕ → List ℚ × List ℕ
  | _, 0, vs, ix => (vs, ix)
  | i, n + 1, vs, ix =>
      make_particles_aux uv (i + 1) n (vs ++ quad_vertices uv)
        (ix ++ quad_indices i)

/-- `PSWidget.make_particles` restricted to its effect on the vertex and
index arrays: `count = len(self.particles)` before the call, `num` particles
added. -/
def make_particles (uv : UVMapping) (count num : ℕ) (vs : List ℚ)
    (ix : List ℕ) : List ℚ × List ℕ :=
  make_particles_aux uv count num vs ix

/-- Closed form of the vertex scalars appended for `n` quads. -/
def quad_vblocks (uv : UVMapping) : ℕ → List ℚ
  | 0 => []
  | n + 1 => quad_vertices uv ++ quad_vblocks uv n

/-- Closed form of the indices appended for `n` quads starting at particle
ordinal `i`. -/
def quad_iblocks : ℕ → ℕ → List ℕ
  | _, 0 => []
  | i, n + 1 => quad_indices i ++ quad_iblocks (i + 1) n

/-- Oracle draw standing for one call of `random()` or `randint(...)`. -/
def draw1 (r : List ℚ) : ℚ := r.headD 0

/-- `Star` particle state (`plane`, `x`, `y`, `size`). -/
structure StarState where
  plane : ℚ
  x : ℚ
  y : ℚ
  size : ℚ
deriving DecidableEq, Repr

/-- `Trail` particle state. -/
structure TrailState where
  x : ℚ
  y : ℚ
  size : ℚ
deriving DecidableEq, Repr

/-- `Player` particle state. -/
structure PlayerState where
  x : ℚ
  y : ℚ
  size : ℚ
deriving DecidableEq, Repr

/-- `Bullet` particle state. -/
structure BulletState where
  active : Bool
  x : ℚ
  y : ℚ
  size : ℚ
deriving DecidableEq, Repr

/-- `Enemy` particle state (`v` is the vertical speed). -/
structure EnemyState where
  active : Bool
  x : ℚ
  y : ℚ
  size : ℚ
  v : ℚ
deriving DecidableEq, Repr

/-- `Star.reset`: draw `plane = randint(1,3)`, then `x` (`random()*width` if
`created`, else the right edge `width`), then `y = random()*height`;
`size = 0.1 * plane`. -/
def star_reset (width height : ℚ) (created : Bool) (r : List ℚ) :
    StarState × List ℚ :=
  let plane := draw1 r
  let r1 := r.tail
  if created then
    let rx := draw1 r1
    let ry := draw1 r1.tail
    (⟨plane, rx * width, ry * height, 0.1 * plane⟩, r1.tail.tail)
  else
    let ry := draw1 r1
    (⟨plane, width, ry * height, 0.1 * plane⟩, r1.tail)

/-- `Star.advance`: `x -= 20*plane*nap`; reset (non-created) when `x < 0`. -/
def star_advance (width height nap : ℚ) (s : StarState) (r : List ℚ) :
    StarState × List ℚ :=
  let x1 := s.x - 20 * s.plane * nap
  if x1 < 0 then star_reset width height false r
  else ({ s with x := x1 }, r)

/-- `Trail.reset`: `x = player_x + randint(-30,-20)`,
`y = player_y + randint(-10,10)`; `size = 0` if `created` else
`random() + 0.6`. -/
def trail_reset (player_x player_y : ℚ) (created : Bool) (r : List ℚ) :
    TrailState × List ℚ :=
  let dx := draw1 r
  let dy := draw1 r.tail
  let r2 := r.tail.tail
  if created then
    (⟨player_x + dx, player_y + dy, 0⟩, r2)
  else
    let rs := draw1 r2
    (⟨player_x + dx, player_y + dy, rs + 0.6⟩, r2.tail)

/-- `Trail.advance`: `size -= nap`; reset when `size ≤ 0.1`, else
`x -= 120*nap`. -/
def trail_advance (player_x player_y nap : ℚ) (t : TrailState)
    (r : List ℚ) : TrailState × List ℚ :=
  let size1 := t.size - nap
  if size1 ≤ 0.1 then trail_reset player_x player_y false r
  else (⟨t.x - 120 * nap, t.y, size1⟩, r)

/-- `Player.reset`: follow the emitter.  `Player.advance` is the same
function (`advance = reset` in the source; the frame's `nap` value lands in
the ignored `created` parameter). -/
def player_reset (player_x player_y : ℚ) (p : PlayerState) : PlayerState :=
  { p with x := player_x, y := player_y }

/-- `Bullet.reset`: inactive, off-screen sentinel; the `created` flag is
ignored by the source body. -/
def bullet_reset (b : BulletState) : BulletState :=
  { b with active := false, x := -100, y := -100 }

/-- `Bullet.advance`: active bullets move right and reset past the right
edge; an inactive bullet activates at the emitter plus offset when `firing`
and `fire_delay ≤ 0`, and the shared `fire_delay` gets `+= 0.3333`. -/
def bullet_advance (width player_x player_y : ℚ) (firing : Bool)
    (nap : ℚ) (b : BulletState) (fire_delay : ℚ) : BulletState × ℚ :=
  if b.active then
    let x1 := b.x + 250 * nap
    if x1 > width then (bullet_reset { b with x := x1 }, fire_delay)
    else ({ b with x := x1 }, fire_delay)
  else if firing = true ∧ fire_delay ≤ 0 then
    ({ b with active := true, x := player_x + 40, y := player_y },
      fire_delay + 0.3333)
  else (b, fire_delay)

/-- `Enemy.reset` exactly as the source: inactive, off-screen sentinel; the
statement `v = 0` binds a local, so the instance field `v` is unchanged;
the `created` flag is ignored by the body. -/
def enemy_reset (created : Bool) (e : EnemyState) : EnemyState :=
  { e with active := false, x := -100, y := -100 }

/-- Modelled from the spec: the variant of `Enemy.reset` whose last line
assigns the instance field (`self.v = 0`); used only as the comparison
program of claim C10. -/
def enemy_reset_v0 (created : Bool) (e : EnemyState) : EnemyState :=
  { e with active := false, x := -100, y := -100, v := 0 }

/-- Bullet loop of `Enemy.check_hit`: skip inactive bullets; the first
active bullet with `hypot(b.x - x, b.y - y) < 30` is reset (consumed) and
the loop returns hit.  `hypot < 30` is modelled as squared distance
`< 900`. -/
def check_hit_bullets (ex ey : ℚ) : List BulletState → Bool × List BulletState
  | [] => (false, [])
  | b :: bs =>
      if b.active = true ∧ (b.x - ex) ^ 2 + (b.y - ey) ^ 2 < 900 then
        (true, bullet_reset b :: bs)
      else
        let rest := check_hit_bullets ex ey bs
        (rest.1, b :: rest.2)

/-- `Enemy.check_hit`: body collision `hypot(player - enemy) < 60` (squared
distance `< 3600`) returns hit immediately — before the bullet loop runs —
otherwise scan the bullet pool. -/
def check_hit (player_x player_y ex ey : ℚ) (bullets : List BulletState) :
    Bool × List BulletState :=
  if (player_x - ex) ^ 2 + (player_y - ey) ^ 2 < 3600 then (true, bullets)
  else check_hit_bullets ex ey bullets

/-- `Enemy.advance`, parametrized by the reset routine so that the C10
variant shares this body; `enemy_advance` below instantiates it with the
source's `enemy_reset`.  Returns the new enemy, the new shared
`spawn_delay`, the (possibly consumed-from) bullet pool, and the remaining
oracle stream. -/
def enemy_advance_gen (rst : EnemyState → EnemyState)
    (width height player_x player_y nap : ℚ) (e : EnemyState)
    (spawn_delay : ℚ) (bullets : List BulletState) (r : List ℚ) :
    EnemyState × ℚ × List BulletState × List ℚ :=
  if e.active then
    let hit := check_hit player_x player_y e.x e.y bullets
    if hit.1 then (rst e, spawn_delay, hit.2, r)
    else
      let x1 := e.x - 200 * nap
      if x1 < -50 then (rst { e with x := x1 }, spawn_delay, hit.2, r)
      else
        let y1 := e.y + e.v * nap
        if y1 ≤ 0 then
          ({ e with x := x1, y := y1, v := |e.v| }, spawn_delay, hit.2, r)
        else if y1 > height then
          ({ e with x := x1, y := y1, v := -|e.v| }, spawn_delay, hit.2, r)
        else ({ e with x := x1, y := y1 }, spawn_delay, hit.2, r)
  else if spawn_delay ≤ 0 then
    let ry := draw1 r
    let rv := draw1 r.tail
    ({ e with active := true, x := width + 50, y := height * ry, v := rv },
      spawn_delay + 1, bullets, r.tail.tail)
  else (e, spawn_delay, bullets, r)

/-- `Enemy.advance` of the source. -/
def enemy_advance := enemy_advance_gen (enemy_reset false)

/-- `Enemy.advance` of the C10 comparison program. -/
def enemy_advance_v0 := enemy_advance_gen (enemy_reset_v0 false)

/-- The `Game` widget state after `Game` has populated its pool: the pool
order fixed by the source is stars, trails, players, enemies, bullets, and
`self.bullets` is the trailing bullet slice of `self.particles`. -/
structure Game where
  width : ℚ
  height : ℚ
  player_x : ℚ
  player_y : ℚ
  firing : Bool
  fire_delay : ℚ
  spawn_delay : ℚ
  stars : List StarState
  trails : List TrailState
  players : List PlayerState
  enemies : List EnemyState
  bullets : List BulletState
  vertices : List ℚ
  indices : List ℕ
deriving DecidableEq, Repr

/-- Output of running the update loop over one homogeneous pool segment. -/
structure PoolOut (α σ : Type) where
  ps : List α
  st : σ
  buf : List ℚ
deriving DecidableEq, Repr

/-- The loop `for p in self.particles: p.advance(nap); p.update()` over one
homogeneous segment of the pool: `i` is the global particle ordinal of the
segment head (so the buffer slice of a particle is at base `28 * i`), `st`
threads whatever shared state the segment's `advance` reads and writes, and
`pos` projects the three live fields `(x, y, size)` that `update` writes. -/
def run_pool {α σ : Type} (pos : α → ℚ × ℚ × ℚ) (step : α → σ → α × σ) :
    List α → ℕ → σ → List ℚ → PoolOut α σ
  | [], _, st, buf => ⟨[], st, buf⟩
  | a :: as, i, st, buf =>
      let as1 := step a st
      let p := pos as1.1
      let buf1 := particle_update buf (28 * i) p.1 p.2.1 p.2.2
      let rest := run_pool pos step as (i + 1) as1.2 buf1
      ⟨as1.1 :: rest.ps, rest.st, rest.buf⟩

def star_pos (s : StarState) : ℚ × ℚ × ℚ := (s.x, s.y, s.size)

def trail_pos (t : TrailState) : ℚ × ℚ × ℚ := (t.x, t.y, t.size)

def player_pos (p : PlayerState) : ℚ × ℚ × ℚ := (p.x, p.y, p.size)

def enemy_pos (e : EnemyState) : ℚ × ℚ × ℚ := (e.x, e.y, e.size)

def bullet_pos (b : BulletState) : ℚ × ℚ × ℚ := (b.x, b.y, b.size)

def star_step (width height nap : ℚ) (s : StarState) (r : List ℚ) :
    StarState × List ℚ := star_advance width height nap s r

def trail_step (player_x player_y nap : ℚ) (t : TrailState) (r : List ℚ) :
    TrailState × List ℚ := trail_advance player_x player_y nap t r

def player_step (player_x player_y : ℚ) (p : PlayerState) (u : Unit) :
    PlayerState × Unit := (player_reset player_x player_y p, u)

/-- Enemy segment step: threads `(spawn_delay, bullet pool, oracle)`. -/
def enemy_step_gen (rst : EnemyState → EnemyState)
    (width height player_x player_y nap : ℚ) (e : EnemyState)
    (st : ℚ × List BulletState × List ℚ) :
    EnemyState × (ℚ × List BulletState × List ℚ) :=
  let o := enemy_advance_gen rst width height player_x player_y nap e
    st.1 st.2.1 st.2.2
  (o.1, (o.2.1, o.2.2.1, o.2.2.2))

def bullet_step (width player_x player_y : ℚ) (firing : Bool) (nap : ℚ)
    (b : BulletState) (fd : ℚ) : BulletState × ℚ :=
  bullet_advance width player_x player_y firing nap b fd

/-- The particle loop of `PSWidget.update_glsl` on the `Game` pool
(stars, trails, players, enemies, bullets, in pool order), parametrized by
the enemy reset routine.  Returns the new game state and the remaining
oracle stream. -/
def frame_pass_gen (rst : EnemyState → EnemyState) (g : Game) (nap : ℚ)
    (r : List ℚ) : Game × List ℚ :=
  let nS := g.stars.length
  let nT := g.trails.length
  let nP := g.players.length
  let nE := g.enemies.length
  let o1 := run_pool star_pos (star_step g.width g.height nap)
    g.stars 0 r g.vertices
  let o2 := run_pool trail_pos (trail_step g.player_x g.player_y nap)
    g.trails nS o1.st o1.buf
  let o3 := run_pool player_pos (player_step g.player_x g.player_y)
    g.players (nS + nT) () o2.buf
  let o4 := run_pool enemy_pos
    (enemy_step_gen rst g.width g.height g.player_x g.player_y nap)
    g.enemies (nS + nT + nP) (g.spawn_delay, g.bullets, o2.st) o3.buf
  let o5 := run_pool bullet_pos
    (bullet_step g.width g.player_x g.player_y g.firing nap)
    o4.st.2.1 (nS + nT + nP + nE) g.fire_delay o4.buf
  ({ g with
      stars := o1.ps
      trails := o2.ps
      players := o3.ps
      enemies := o4.ps
      bullets := o5.ps
      spawn_delay := o4.st.1
      fire_delay := o5.st
      vertices := o5.buf }, o4.st.2.2)

/-- The particle loop of `PSWidget.update_glsl` of the source program. -/
def frame_pass := frame_pass_gen (enemy_reset false)

/-- The particle loop of the C10 comparison program. -/
def frame_pass_v0 := frame_pass_gen (enemy_reset_v0 false)

/-- The particle at global ordinal `i` has its buffer slice in sync with the
live fields `xys = (x, y, size)`: all 4 of its vertex records carry them in
their first three scalars. -/
def sliceEq (buf : List ℚ) (i : ℕ) (xys : ℚ × ℚ × ℚ) : Prop :=
  ∀ k, k < 4 →
    buf.get? (28 * i + 7 * k) = some xys.1 ∧
    buf.get? (28 * i + 7 * k + 1) = some xys.2.1 ∧
    buf.get? (28 * i + 7 * k + 2) = some xys.2.2

/-- `Game.update_glsl`: read the mouse into the emitter position, tick the
cooldowns (`fire_delay` only while `firing`), then run the particle loop of
`PSWidget.update_glsl`; parametrized by the enemy reset routine. -/
def game_update_glsl_gen (rst : EnemyState → EnemyState) (g : Game)
    (mouse : ℚ × ℚ) (nap : ℚ) (r : List ℚ) : Game × List ℚ :=
  let g1 := { g with player_x := mouse.1, player_y := mouse.2 }
  let g2 :=
    if g1.firing then { g1 with fire_delay := g1.fire_delay - nap } else g1
  let g3 := { g2 with spawn_delay := g2.spawn_delay - nap }
  frame_pass_gen rst g3 nap r

/-- The frame step of the source program. -/
def game_update_glsl := game_update_glsl_gen (enemy_reset false)

/-- The frame step of the C10 comparison program. -/
def game_update_glsl_v0 := game_update_glsl_gen (enemy_reset_v0 false)

/-- Iterate frame steps over a list of per-frame inputs `(mouse, nap)`. -/
def run_frames_gen (rst : EnemyState → EnemyState) :
    List ((ℚ × ℚ) × ℚ) → Game → List ℚ → Game × List ℚ
  | [], g, r => (g, r)
  | f :: fs, g, r =>
      let o := game_update_glsl_gen rst g f.1 f.2 r
      run_frames_gen rst fs o.1 o.2

/-- Frame iteration of the source program. -/
def run_frames := run_frames_gen (enemy_reset false)

/-- Frame iteration of the C10 comparison program. -/
def run_frames_v0 := run_frames_gen (enemy_reset_v0 false)

/-- A small concrete `Game` state (one particle of each kind, buffer of
`28 * 5` scalars) used to instantiate theorems at concrete inputs. -/
def sampleGame : Game :=
  { width := 800
    height := 600
    player_x := 100
    player_y := 50
    firing := false
    fire_delay := 0
    spawn_delay := 1
    stars := [⟨1, 5, 6, 1 / 10⟩]
    trails := [⟨2, 3, 1⟩]
    players := [⟨4, 5, 1⟩]
    enemies := [⟨true, 300, 200, 1, 50⟩]
    bullets := [⟨false, -100, -100, 1⟩]
    vertices := List.replicate 140 0
    indices := [0, 1, 2, 2, 3, 0] }

/-- C10 relation on enemy states: live fields equal; the velocity field may
differ only while the enemy is inactive (every activation overwrites `v`
before it is read again). -/
def EnemyRel (e e2 : EnemyState) : Prop :=
  e.x = e2.x ∧ e.y = e2.y ∧ e.size = e2.size ∧ e.active = e2.active ∧
    (e.active = true → e.v = e2.v)

/-- C10 relation on game states: all components equal except enemies, which
are related pointwise by `EnemyRel`. -/
def GameRel (g g2 : Game) : Prop :=
  g.width = g2.width ∧ g.height = g2.height ∧ g.player_x = g2.player_x ∧
  g.player_y = g2.player_y ∧ g.firing = g2.firing ∧
  g.fire_delay = g2.fire_delay ∧ g.spawn_delay = g2.spawn_delay ∧
  g.stars = g2.stars ∧ g.trails = g2.trails ∧ g.players = g2.players ∧
  List.Forall₂ EnemyRel g.enemies g2.enemies ∧ g.bullets = g2.bullets ∧
  g.vertices = g2.vertices ∧ g.indices = g2.indices

/-- C1: for every sprite entry `(x0, y0, w, h)` of the manifest entry that
`popitem` selects and texture pixel size `(W, H)` with `W, H > 0`, the atlas
mapper produces for that sprite exactly
`UVMapping (x0/W) (1-(y0+h)/H) ((x0+w)/W) (1-y0/H) (w/2) (h/2)`. -/
theorem c1_load_atlas_uv_formula
    (atlas : List (String × List (String × (ℚ × ℚ × ℚ × ℚ))))
    (W H : ℚ) (hW : 0 < W) (hH : 0 < H)
    (tex_name : String) (mapping : List (String × (ℚ × ℚ × ℚ × ℚ)))
    (name : String) (x0 y0 w h : ℚ)
    (hpop : atlas.getLast? = some (tex_name, mapping))
    (hmem : (name, (x0, y0, w, h)) ∈ mapping) :
    ∃ uvmap, load_atlas atlas (W, H) = some (tex_name, uvmap) ∧
      (name, UVMapping.mk (x0 / W) (1 - (y0 + h) / H) ((x0 + w) / W)
        (1 - y0 / H) (w / 2) (h / 2)) ∈ uvmap := by
  refine ⟨mapping.map (fun nv => (nv.1, atlas_uv W H nv.2)), ?_, ?_⟩
  · simp [load_atlas, hpop]
  have : UVMapping.mk (x0 / W) (1 - (y0 + h) / H) ((x0 + w) / W)
      (1 - y0 / H) (w / 2) (h / 2) = atlas_uv W H (x0, y0, w, h) := by
    simp only [atlas_uv, UVMapping.mk.injEq]
    refine ⟨by ring, by ring, by ring, by ring, by ring, by ring⟩
  rw [this]
  exact List.mem_map.2 ⟨(name, (x0, y0, w, h)), hmem, rfl⟩

/-- Witness for C1, the spec scenario: manifest
`[("tex.png", [("star", (0,0,10,10))])]` at texture size `(100, 100)` gives
the mapping of the formula, and that mapping is
`UVMapping 0 0.9 0.1 1 5 5`. -/
theorem c1_load_atlas_uv_formula_witness :
    (∃ uvmap,
      load_atlas [("tex.png", [("star", ((0 : ℚ), 0, 10, 10))])] (100, 100) =
        some ("tex.png", uvmap) ∧
      (("star", UVMapping.mk ((0 : ℚ) / 100) (1 - ((0 : ℚ) + 10) / 100)
        (((0 : ℚ) + 10) / 100) (1 - (0 : ℚ) / 100) ((10 : ℚ) / 2)
        ((10 : ℚ) / 2)) ∈ uvmap)) ∧
    UVMapping.mk ((0 : ℚ) / 100) (1 - ((0 : ℚ) + 10) / 100)
        (((0 : ℚ) + 10) / 100) (1 - (0 : ℚ) / 100) ((10 : ℚ) / 2)
        ((10 : ℚ) / 2) =
      ⟨0, 0.9, 0.1, 1, 5, 5⟩ :=
  ⟨c1_load_atlas_uv_formula _ 100 100 (by norm_num) (by norm_num) _ _
    "star" 0 0 10 10 rfl (by simp), by norm_num⟩

lemma make_particles_aux_eq (uv : UVMapping) :
    ∀ (n i : ℕ) (vs : List ℚ) (ix : List ℕ),
      make_particles_aux uv i n vs ix =
        (vs ++ quad_vblocks uv n, ix ++ quad_iblocks i n) := by
  intro n
  induction n with
  | zero => intro i vs ix; simp [make_particles_aux, quad_vblocks, quad_iblocks]
  | succ m ih =>
      intro i vs ix
      simp only [make_particles_aux, quad_vblocks, quad_iblocks, ih,
        List.append_assoc]

lemma quad_vblocks_length (uv : UVMapping) :
    ∀ n, (quad_vblocks uv n).length = 28 * n := by
  intro n
  induction n with
  | zero => simp [quad_vblocks]
  | succ m ih =>
      simp [quad_vblocks, ih, quad_vertices]
      ring_nf

lemma quad_iblocks_length :
    ∀ n i, (quad_iblocks i n).length = 6 * n := by
  intro n
  induction n with
  | zero => intro i; simp [quad_iblocks]
  | succ m ih =>
      intro i
      simp [quad_iblocks, ih, quad_indices]
      ring_nf

lemma quad_vblocks_drop (uv : UVMapping) :
    ∀ q n, (quad_vblocks uv (q + n)).drop (28 * q) = quad_vblocks uv n := by
  intro q
  induction q with
  | zero => intro n; simp
  | succ m ih =>
      intro n
      have hlen : (quad_vertices uv).length = 28 := by simp [quad_vertices]
      have h28 : 28 * (m + 1) = (quad_vertices uv).length + 28 * m := by
        rw [hlen]; ring
      have hstep : m + 1 + n = (m + n) + 1 := by omega
      rw [hstep]
      show (quad_vertices uv ++ quad_vblocks uv (m + n)).drop (28 * (m + 1)) =
        quad_vblocks uv n
      rw [h28, List.drop_append, ih]

lemma quad_iblocks_drop :
    ∀ q i n, (quad_iblocks i (q + n)).drop (6 * q) = quad_iblocks (i + q) n := by
  intro q
  induction q with
  | zero => intro i n; simp
  | succ m ih =>
      intro i n
      have hlen : (quad_indices i).length = 6 := by simp [quad_indices]
      have h6 : 6 * (m + 1) = (quad_indices i).length + 6 * m := by
        rw [hlen]; ring
      have hstep : m + 1 + n = (m + n) + 1 := by omega
      rw [hstep]
      show (quad_indices i ++ quad_iblocks (i + 1) (m + n)).drop (6 * (m + 1)) =
        quad_iblocks (i + (m + 1)) n
      rw [h6, List.drop_append, ih]
      congr 1
      omega

lemma quad_iblocks_bounds :
    ∀ n i m, m ∈ quad_iblocks i n → 4 * i ≤ m ∧ m < 4 * (i + n) := by
  intro n
  induction n with
  | zero => intro i m hm; simp [quad_iblocks] at hm
  | succ k ih =>
      intro i m hm
      simp only [quad_iblocks, List.mem_append] at hm
      rcases hm with hm | hm
      · simp [quad_indices] at hm
        omega
      · have := ih (i + 1) m hm
        omega

/-- C2 (amended): allocating `n` quads appends exactly `28 n` vertex scalars
(`4 n` records of 7) and `6 n` indices, preserves the existing arrays as a
prefix, writes each quad's 4 vertices contiguously in order top-left,
top-right, bottom-right, bottom-left with local offsets
`(-su,-sv), (su,-sv), (su,sv), (-su,sv)` and UV fields from `uv`, with the
center zero-initialized and the scale initialized to `1`; each quad's 6
indices follow the pattern `(j, j+1, j+2, j+2, j+3, j)` for its base vertex
`j = 4*(count+q)` and reference only the newly added vertices. -/
theorem c2_make_particles_layout (uv : UVMapping) (count n : ℕ)
    (vs : List ℚ) (ix : List ℕ) (hvs : vs.length = 28 * count) :
    ∀ vs2 ix2, make_particles uv count n vs ix = (vs2, ix2) →
      vs2.length = vs.length + 28 * n ∧
      ix2.length = ix.length + 6 * n ∧
      vs2.take vs.length = vs ∧
      ix2.take ix.length = ix ∧
      (∀ q, q < n →
        (vs2.drop (28 * (count + q))).take 28 =
          [0, 0, 1, -uv.su, -uv.sv, uv.u0, uv.v1,
           0, 0, 1, uv.su, -uv.sv, uv.u1, uv.v1,
           0, 0, 1, uv.su, uv.sv, uv.u1, uv.v0,
           0, 0, 1, -uv.su, uv.sv, uv.u0, uv.v0]) ∧
      (∀ q, q < n →
        (ix2.drop (ix.length + 6 * q)).take 6 =
          [4 * (count + q), 4 * (count + q) + 1, 4 * (count + q) + 2,
           4 * (count + q) + 2, 4 * (count + q) + 3, 4 * (count + q)]) ∧
      (∀ p m, ix.length ≤ p → ix2.get? p = some m →
        4 * count ≤ m ∧ m < 4 * (count + n)) := by
  intro vs2 ix2 heq
  rw [make_particles, make_particles_aux_eq] at heq
  injection heq with hv hi
  subst hv
  subst hi
  refine ⟨?_, ?_, ?_, ?_, ?_, ?_, ?_⟩
  · simp [quad_vblocks_length]
  · simp [quad_iblocks_length]
  · exact List.take_left vs _
  · exact List.take_left ix _
  · intro q hq
    have hsplit : n = q + (n - q - 1 + 1) := by omega
    have hdrop : 28 * (count + q) = vs.length + 28 * q := by rw [hvs]; ring
    rw [hdrop, List.drop_append, hsplit, quad_vblocks_drop]
    show ((quad_vertices uv ++ quad_vblocks uv (n - q - 1)).take 28) = _
    have h28 : (28 : ℕ) = (quad_vertices uv).length := by simp [quad_vertices]
    rw [h28, List.take_left]
    rfl
  · intro q hq
    have hsplit : n = q + (n - q - 1 + 1) := by omega
    rw [List.drop_append, hsplit, quad_iblocks_drop]
    show ((quad_indices (count + q) ++
      quad_iblocks (count + q + 1) (n - q - 1)).take 6) = _
    have h6 : (6 : ℕ) = (quad_indices (count + q)).length := by
      simp [quad_indices]
    rw [h6, List.take_left]
    rfl
  · intro p m hp hget
    rw [List.get?_append_right hp] at hget
    have hmem : m ∈ quad_iblocks count n := List.get?_mem hget
    exact quad_iblocks_bounds n count m hmem

/-- Counterexample to C2 as stated: the claim's "center and scale
zero-initialized" fails on the code — the scale scalar (third field) of the
very first vertex record written by `make_particles` is `1`, not `0`. -/
theorem c2_counterexample :
    ((make_particles ⟨0, 0, 0, 0, 1, 1⟩ 0 1 [] []).1.get? 2 = some 1) ∧
    (1 : ℚ) ≠ 0 := by
  refine ⟨rfl, by norm_num⟩

/-- Witness for C2's amended theorem at a concrete input:
`uv = ⟨2, 3, 5, 7, 11, 13⟩`, one quad appended to empty arrays. -/
theorem c2_make_particles_layout_witness :
    ([0, 0, 1, -11, -13, 2, 7,
      0, 0, 1, 11, -13, 5, 7,
      0, 0, 1, 11, 13, 5, 3,
      0, 0, 1, -11, 13, 2, 3] : List ℚ).length =
        ([] : List ℚ).length + 28 * 1 ∧
    ([0, 1, 2, 2, 3, 0] : List ℕ).length = ([] : List ℕ).length + 6 * 1 ∧
    ([0, 0, 1, -11, -13, 2, 7,
      0, 0, 1, 11, -13, 5, 7,
      0, 0, 1, 11, 13, 5, 3,
      0, 0, 1, -11, 13, 2, 3] : List ℚ).take ([] : List ℚ).length = [] ∧
    ([0, 1, 2, 2, 3, 0] : List ℕ).take ([] : List ℕ).length = [] ∧
    (∀ q, q < 1 →
      (([0, 0, 1, -11, -13, 2, 7,
         0, 0, 1, 11, -13, 5, 7,
         0, 0, 1, 11, 13, 5, 3,
         0, 0, 1, -11, 13, 2, 3] : List ℚ).drop (28 * (0 + q))).take 28 =
        [0, 0, 1, -11, -13, 2, 7,
         0, 0, 1, 11, -13, 5, 7,
         0, 0, 1, 11, 13, 5, 3,
         0, 0, 1, -11, 13, 2, 3]) ∧
    (∀ q, q < 1 →
      (([0, 1, 2, 2, 3, 0] : List ℕ).drop
          (([] : List ℕ).length + 6 * q)).take 6 =
        [4 * (0 + q), 4 * (0 + q) + 1, 4 * (0 + q) + 2,
         4 * (0 + q) + 2, 4 * (0 + q) + 3, 4 * (0 + q)]) ∧
    (∀ p m, ([] : List ℕ).length ≤ p →
      ([0, 1, 2, 2, 3, 0] : List ℕ).get? p = some m →
      4 * 0 ≤ m ∧ m < 4 * (0 + 1)) :=
  c2_make_particles_layout ⟨2, 3, 5, 7, 11, 13⟩ 0 1 [] [] (by decide)
    [0, 0, 1, -11, -13, 2, 7,
     0, 0, 1, 11, -13, 5, 7,
     0, 0, 1, 11, 13, 5, 3,
     0, 0, 1, -11, 13, 2, 3]
    [0, 1, 2, 2, 3, 0] (by decide)

/-- Counterexample to C5 as stated: a manifest with two top-level entries
whose used (last-inserted) entry contains a zero-sized rectangle and a
rectangle exceeding the `(100, 100)` texture bounds is mapped successfully —
`load_atlas` performs none of the claimed validations. -/
theorem c5_counterexample :
    load_atlas
      [("a.png", []),
       ("b.png", [("z", ((0 : ℚ), 0, 0, 0)), ("t", ((0 : ℚ), 0, 200, 200))])]
      (100, 100) =
    some ("b.png",
      [("z", ⟨0, 1, 0, 1, 0, 0⟩), ("t", ⟨0, -1, 2, 1, 100, 100⟩)]) := by
  have hlast :
      ([("a.png", ([] : List (String × (ℚ × ℚ × ℚ × ℚ)))),
        ("b.png", [("z", ((0 : ℚ), 0, 0, 0)),
          ("t", ((0 : ℚ), 0, 200, 200))])]).getLast? =
      some ("b.png", [("z", ((0 : ℚ), 0, 0, 0)),
        ("t", ((0 : ℚ), 0, 200, 200))]) := rfl
  rw [load_atlas, hlast]
  norm_num [atlas_uv, UVMapping.mk.injEq]

/-- C5 (amended): `load_atlas` validates nothing — it fails only on an empty
manifest (where `popitem` raises `KeyError`); with more than one top-level
entry it silently uses only the last-inserted one; rectangles with
non-positive width/height or exceeding the texture bounds are mapped without
error. -/
theorem c5_load_atlas_no_validation :
    (∀ (atlas : List (String × List (String × (ℚ × ℚ × ℚ × ℚ))))
      (ts : ℚ × ℚ), load_atlas atlas ts = none ↔ atlas = []) ∧
    (∀ (pre : List (String × List (String × (ℚ × ℚ × ℚ × ℚ))))
      (tex_name : String) (mapping : List (String × (ℚ × ℚ × ℚ × ℚ)))
      (ts : ℚ × ℚ),
      load_atlas (pre ++ [(tex_name, mapping)]) ts =
        some (tex_name,
          mapping.map (fun nv => (nv.1, atlas_uv ts.1 ts.2 nv.2)))) := by
  constructor
  · intro atlas ts
    rw [load_atlas]
    rcases h : atlas.getLast? with - | p
    · simp [List.getLast?_eq_none_iff.1 h]
    · simp
      intro hnil
      rw [hnil] at h
      simp at h
  · intro pre tex_name mapping ts
    rw [load_atlas, List.getLast?_concat]

/-- C6 (amended): when an active Enemy is within body-collision range of the
player (`hypot < 60`), its `advance` resets it to inactive off-screen and
returns immediately: the bullet loop never runs, so the colliding Bullet is
NOT reset, and no other pooled state (`spawn_delay`, bullet pool, oracle)
is mutated. -/
theorem c6_enemy_body_collision (width height player_x player_y nap : ℚ)
    (e : EnemyState) (sd : ℚ) (bullets : List BulletState) (r : List ℚ)
    (hact : e.active = true)
    (hbody : (player_x - e.x) ^ 2 + (player_y - e.y) ^ 2 < 3600) :
    enemy_advance width height player_x player_y nap e sd bullets r =
      (enemy_reset false e, sd, bullets, r) ∧
    (enemy_reset false e).active = false ∧
    (enemy_reset false e).x = -100 ∧
    (enemy_reset false e).y = -100 := by
  refine ⟨?_, rfl, rfl, rfl⟩
  simp [enemy_advance, enemy_advance_gen, check_hit, hact, hbody]

/-- Witness for the amended C6 at the spec's scenario inputs: Enemy active
at `(100, 50)` with `v = 50`, one active Bullet at `(100, 50)`, player at
`(100, 50)`, `dt = 0.01`. -/
theorem c6_enemy_body_collision_witness :
    enemy_advance 800 600 100 50 (1 / 100) ⟨true, 100, 50, 1, 50⟩ 1
        [⟨true, 100, 50, 1⟩] [] =
      (enemy_reset false ⟨true, 100, 50, 1, 50⟩, 1, [⟨true, 100, 50, 1⟩],
        []) ∧
    (enemy_reset false ⟨true, 100, 50, 1, 50⟩).active = false ∧
    (enemy_reset false ⟨true, 100, 50, 1, 50⟩).x = -100 ∧
    (enemy_reset false ⟨true, 100, 50, 1, 50⟩).y = -100 :=
  c6_enemy_body_collision 800 600 100 50 (1 / 100) ⟨true, 100, 50, 1, 50⟩ 1
    [⟨true, 100, 50, 1⟩] [] rfl (by norm_num)

/-- Counterexample to C6 as stated: at the claim's own scenario, the
colliding Bullet is returned unchanged — still active at `(100, 50)` — so
it is not "reset to inactive off-screen". -/
theorem c6_counterexample :
    (enemy_advance 800 600 100 50 (1 / 100) ⟨true, 100, 50, 1, 50⟩ 1
        [⟨true, 100, 50, 1⟩] []).2.2.1 = [⟨true, 100, 50, 1⟩] ∧
    (⟨true, 100, 50, 1⟩ : BulletState).active = true := by
  refine ⟨?_, rfl⟩
  norm_num [enemy_advance, enemy_advance_gen, check_hit]

/-- C7: the claim (spec table row "v=0") is the intent, but `Enemy.reset`
assigns `v = 0` to a dead local; the instance field is untouched.  At the
failing input (an Enemy with `v = 50`) the field remains `50 ≠ 0` after
reset, for either value of `created`. -/
theorem c7_enemy_reset_keeps_v :
    (∀ (created : Bool) (e : EnemyState), (enemy_reset created e).v = e.v) ∧
    enemy_reset false ⟨true, 100, 50, 1, 50⟩ = ⟨false, -100, -100, 1, 50⟩ ∧
    enemy_reset true ⟨true, 100, 50, 1, 50⟩ = ⟨false, -100, -100, 1, 50⟩ ∧
    (50 : ℚ) ≠ 0 := by
  exact ⟨fun _ _ => rfl, rfl, rfl, by norm_num⟩

/-- Counterexample to C8 as stated: an inactive Bullet activating with
`fire_delay = -0.01` leaves the cooldown at `-0.01 + 0.3333 = 0.3233`, not
`0.3333`; an inactive Enemy activating with `spawn_delay = -0.01` leaves it
at `0.99`, not `1`. -/
theorem c8_counterexample :
    (bullet_advance 800 100 50 true (1 / 60) ⟨false, -100, -100, 1⟩
        (-1 / 100)).2 = -1 / 100 + 0.3333 ∧
    ((-1 : ℚ) / 100 + 0.3333 ≠ 0.3333) ∧
    (enemy_advance 800 600 100 50 (1 / 60) ⟨false, -100, -100, 1, 0⟩
        (-1 / 100) [] []).2.1 = -1 / 100 + 1 ∧
    ((-1 : ℚ) / 100 + 1 ≠ 1) := by
  refine ⟨?_, by norm_num, ?_, by norm_num⟩
  · norm_num [bullet_advance]
  · norm_num [enemy_advance, enemy_advance_gen]

/-- C8 (amended): on activation the constants are ADDED to the shared
cooldowns (`+=` in the source): the post-activation fire cooldown is
`fire_delay + 0.3333` and the post-activation spawn cooldown is
`spawn_delay + 1`; they equal the stated constants only when the prior
(non-positive) value was exactly `0`. -/
theorem c8_cooldown_added (width height player_x player_y nap : ℚ)
    (b : BulletState) (fd : ℚ) (hb : b.active = false) (hfd : fd ≤ 0)
    (e : EnemyState) (sd : ℚ) (bullets : List BulletState) (r : List ℚ)
    (he : e.active = false) (hsd : sd ≤ 0) :
    (bullet_advance width player_x player_y true nap b fd).2 =
      fd + 0.3333 ∧
    (enemy_advance width height player_x player_y nap e sd bullets r).2.1 =
      sd + 1 := by
  constructor
  · simp [bullet_advance, hb, hfd]
  · simp [enemy_advance, enemy_advance_gen, he, hsd]

/-- Witness for the amended C8 at concrete inputs. -/
theorem c8_cooldown_added_witness :
    (bullet_advance 800 100 50 true (1 / 60) ⟨false, -100, -100, 1⟩
        (-1 / 100)).2 = -1 / 100 + 0.3333 ∧
    (enemy_advance 800 600 100 50 (1 / 60) ⟨false, -100, -100, 1, 0⟩
        (-1 / 100) [] []).2.1 = -1 / 100 + 1 :=
  c8_cooldown_added 800 600 100 50 (1 / 60) ⟨false, -100, -100, 1⟩
    (-1 / 100) rfl (by norm_num) ⟨false, -100, -100, 1, 0⟩ (-1 / 100) [] []
    rfl (by norm_num)

/-- C9: a Star whose `x` is exactly `0` resets on the next `advance` for any
`dt > 0` (the guard is the strict `x < 0` applied after the decrement, and
`plane ≥ 1` from `randint(1, 3)`), via the non-created reset path, which
respawns it at the right edge `x = width`. -/
theorem c9_star_boundary_reset (width height nap : ℚ) (s : StarState)
    (r : List ℚ) (hx : s.x = 0) (hplane : 1 ≤ s.plane) (hnap : 0 < nap) :
    star_advance width height nap s r = star_reset width height false r ∧
    (star_advance width height nap s r).1.x = width := by
  have hneg : s.x - 20 * s.plane * nap < 0 := by
    rw [hx]; nlinarith
  constructor
  · simp [star_advance, hneg]
  · simp [star_advance, hneg, star_reset]

/-- Witness for C9 at a concrete input. -/
theorem c9_star_boundary_reset_witness :
    star_advance 800 600 (1 / 60) ⟨1, 0, 5, 1 / 10⟩ [] =
      star_reset 800 600 false [] ∧
    (star_advance 800 600 (1 / 60) ⟨1, 0, 5, 1 / 10⟩ []).1.x = 800 :=
  c9_star_boundary_reset 800 600 (1 / 60) ⟨1, 0, 5, 1 / 10⟩ [] rfl
    (by norm_num) (by norm_num)

lemma set3_length (buf : List ℚ) (i : ℕ) (x y s : ℚ) :
    (set3 buf i x y s).length = buf.length := by
  simp [set3]

lemma particle_update_length (buf : List ℚ) (base : ℕ) (x y s : ℚ) :
    (particle_update buf base x y s).length = buf.length := by
  simp [particle_update, set3_length]

lemma set3_get?_ne (buf : List ℚ) (i : ℕ) (x y s : ℚ) (p : ℕ)
    (h0 : p ≠ i) (h1 : p ≠ i + 1) (h2 : p ≠ i + 2) :
    (set3 buf i x y s).get? p = buf.get? p := by
  unfold set3
  rw [List.get?_set_ne _ _ (Ne.symm h2), List.get?_set_ne _ _ (Ne.symm h1),
    List.get?_set_ne _ _ (Ne.symm h0)]

lemma set3_get?_self (buf : List ℚ) (i : ℕ) (x y s : ℚ)
    (h : i + 2 < buf.length) :
    (set3 buf i x y s).get? i = some x ∧
    (set3 buf i x y s).get? (i + 1) = some y ∧
    (set3 buf i x y s).get? (i + 2) = some s := by
  have hl1 : (buf.set i x).length = buf.length := by simp
  have hl2 : ((buf.set i x).set (i + 1) y).length = buf.length := by simp
  unfold set3
  refine ⟨?_, ?_, ?_⟩
  · rw [List.get?_set_ne _ _ (by omega), List.get?_set_ne _ _ (by omega),
      List.get?_set_eq_of_lt _ (by omega)]
  · rw [List.get?_set_ne _ _ (by omega),
      List.get?_set_eq_of_lt _ (by omega)]
  · rw [List.get?_set_eq_of_lt _ (by omega)]

lemma particle_update_get?_other (buf : List ℚ) (base : ℕ) (x y s : ℚ)
    (p : ℕ) (hp : ∀ k, k < 4 → ∀ j, j < 3 → p ≠ base + 7 * k + j) :
    (particle_update buf base x y s).get? p = buf.get? p := by
  have a0 := hp 0 (by norm_num) 0 (by norm_num)
  have a1 := hp 0 (by norm_num) 1 (by norm_num)
  have a2 := hp 0 (by norm_num) 2 (by norm_num)
  have b0 := hp 1 (by norm_num) 0 (by norm_num)
  have b1 := hp 1 (by norm_num) 1 (by norm_num)
  have b2 := hp 1 (by norm_num) 2 (by norm_num)
  have c0 := hp 2 (by norm_num) 0 (by norm_num)
  have c1 := hp 2 (by norm_num) 1 (by norm_num)
  have c2 := hp 2 (by norm_num) 2 (by norm_num)
  have d0 := hp 3 (by norm_num) 0 (by norm_num)
  have d1 := hp 3 (by norm_num) 1 (by norm_num)
  have d2 := hp 3 (by norm_num) 2 (by norm_num)
  unfold particle_update
  rw [set3_get?_ne _ _ _ _ _ _ (by omega) (by omega) (by omega),
    set3_get?_ne _ _ _ _ _ _ (by omega) (by omega) (by omega),
    set3_get?_ne _ _ _ _ _ _ (by omega) (by omega) (by omega),
    set3_get?_ne _ _ _ _ _ _ (by omega) (by omega) (by omega)]

lemma particle_update_sliceEq (buf : List ℚ) (i : ℕ) (x y s : ℚ)
    (h : 28 * i + 23 < buf.length) :
    sliceEq (particle_update buf (28 * i) x y s) i (x, y, s) := by
  intro k hk
  have hl0 : (set3 buf (28 * i) x y s).length = buf.length := set3_length ..
  have hl1 : (set3 (set3 buf (28 * i) x y s) (28 * i + 7) x y s).length =
      buf.length := by rw [set3_length, hl0]
  have hl2 : (set3 (set3 (set3 buf (28 * i) x y s) (28 * i + 7) x y s)
      (28 * i + 14) x y s).length = buf.length := by rw [set3_length, hl1]
  interval_cases k
  · refine ⟨?_, ?_, ?_⟩ <;>
    · unfold particle_update
      rw [set3_get?_ne _ _ _ _ _ _ (by omega) (by omega) (by omega),
        set3_get?_ne _ _ _ _ _ _ (by omega) (by omega) (by omega),
        set3_get?_ne _ _ _ _ _ _ (by omega) (by omega) (by omega)]
      have hs := set3_get?_self buf (28 * i) x y s (by omega)
      simp only [Nat.mul_zero, Nat.add_zero]
      first
      | exact hs.1
      | exact hs.2.1
      | exact hs.2.2
  · refine ⟨?_, ?_, ?_⟩ <;>
    · unfold particle_update
      rw [set3_get?_ne _ _ _ _ _ _ (by omega) (by omega) (by omega),
        set3_get?_ne _ _ _ _ _ _ (by omega) (by omega) (by omega)]
      have hs := set3_get?_self (set3 buf (28 * i) x y s) (28 * i + 7) x y s
        (by omega)
      have e1 : 28 * i + 7 * 1 = 28 * i + 7 := by omega
      have e2 : 28 * i + 7 * 1 + 1 = 28 * i + 7 + 1 := by omega
      have e3 : 28 * i + 7 * 1 + 2 = 28 * i + 7 + 2 := by omega
      first
      | (rw [e1]; exact hs.1)
      | (rw [e2]; exact hs.2.1)
      | (rw [e3]; exact hs.2.2)
  · refine ⟨?_, ?_, ?_⟩ <;>
    · unfold particle_update
      rw [set3_get?_ne _ _ _ _ _ _ (by omega) (by omega) (by omega)]
      have hs := set3_get?_self
        (set3 (set3 buf (28 * i) x y s) (28 * i + 7) x y s)
        (28 * i + 14) x y s (by omega)
      have e1 : 28 * i + 7 * 2 = 28 * i + 14 := by omega
      have e2 : 28 * i + 7 * 2 + 1 = 28 * i + 14 + 1 := by omega
      have e3 : 28 * i + 7 * 2 + 2 = 28 * i + 14 + 2 := by omega
      first
      | (rw [e1]; exact hs.1)
      | (rw [e2]; exact hs.2.1)
      | (rw [e3]; exact hs.2.2)
  · refine ⟨?_, ?_, ?_⟩ <;>
    · unfold particle_update
      have hs := set3_get?_self
        (set3 (set3 (set3 buf (28 * i) x y s) (28 * i + 7) x y s)
          (28 * i + 14) x y s)
        (28 * i + 21) x y s (by omega)
      have e1 : 28 * i + 7 * 3 = 28 * i + 21 := by omega
      have e2 : 28 * i + 7 * 3 + 1 = 28 * i + 21 + 1 := by omega
      have e3 : 28 * i + 7 * 3 + 2 = 28 * i + 21 + 2 := by omega
      first
      | (rw [e1]; exact hs.1)
      | (rw [e2]; exact hs.2.1)
      | (rw [e3]; exact hs.2.2)

lemma sliceEq_of_agree (buf buf2 : List ℚ) (i : ℕ) (xys : ℚ × ℚ × ℚ)
    (hagree : ∀ p, 28 * i ≤ p → p < 28 * i + 24 → buf2.get? p = buf.get? p)
    (hs : sliceEq buf i xys) : sliceEq buf2 i xys := by
  intro k hk
  obtain ⟨h1, h2, h3⟩ := hs k hk
  refine ⟨?_, ?_, ?_⟩
  · rw [hagree _ (by omega) (by omega)]; exact h1
  · rw [hagree _ (by omega) (by omega)]; exact h2
  · rw [hagree _ (by omega) (by omega)]; exact h3

lemma run_pool_ps_length {α σ : Type} (pos : α → ℚ × ℚ × ℚ)
    (step : α → σ → α × σ) :
    ∀ (as : List α) (i : ℕ) (st : σ) (buf : List ℚ),
      (run_pool pos step as i st buf).ps.length = as.length := by
  intro as
  induction as with
  | nil => intro i st buf; rfl
  | cons a tl ih =>
      intro i st buf
      simp only [run_pool, List.length_cons]
      rw [ih]

lemma run_pool_buf_length {α σ : Type} (pos : α → ℚ × ℚ × ℚ)
    (step : α → σ → α × σ) :
    ∀ (as : List α) (i : ℕ) (st : σ) (buf : List ℚ),
      (run_pool pos step as i st buf).buf.length = buf.length := by
  intro as
  induction as with
  | nil => intro i st buf; rfl
  | cons a tl ih =>
      intro i st buf
      simp only [run_pool]
      rw [ih, particle_update_length]

lemma run_pool_frame {α σ : Type} (pos : α → ℚ × ℚ × ℚ)
    (step : α → σ → α × σ) :
    ∀ (as : List α) (i : ℕ) (st : σ) (buf : List ℚ) (p : ℕ),
      (p < 28 * i ∨ 28 * (i + as.length) ≤ p) →
      (run_pool pos step as i st buf).buf.get? p = buf.get? p := by
  intro as
  induction as with
  | nil => intro i st buf p hp; rfl
  | cons a tl ih =>
      intro i st buf p hp
      have hlen : (a :: tl).length = tl.length + 1 := rfl
      rw [hlen] at hp
      simp only [run_pool]
      rw [ih _ _ _ _ (by omega)]
      exact particle_update_get?_other _ _ _ _ _ _
        (by intro k hk j hj; omega)

lemma run_pool_slices {α σ : Type} (pos : α → ℚ × ℚ × ℚ)
    (step : α → σ → α × σ) :
    ∀ (as : List α) (i : ℕ) (st : σ) (buf : List ℚ),
      28 * (i + as.length) ≤ buf.length →
      ∀ j a, (run_pool pos step as i st buf).ps.get? j = some a →
        sliceEq (run_pool pos step as i st buf).buf (i + j) (pos a) := by
  intro as
  induction as with
  | nil =>
      intro i st buf hb j a hj
      simp [run_pool] at hj
  | cons hd tl ih =>
      intro i st buf hb j a hj
      have hlen : (hd :: tl).length = tl.length + 1 := rfl
      rw [hlen] at hb
      simp only [run_pool] at hj ⊢
      cases j with
      | zero =>
          have ha : (step hd st).1 = a := by
            simpa using hj
          subst ha
          have hw := particle_update_sliceEq buf i (pos (step hd st).1).1
            (pos (step hd st).1).2.1 (pos (step hd st).1).2.2 (by omega)
          have hidx : i + 0 = i := by omega
          rw [hidx]
          refine sliceEq_of_agree _ _ _ _ ?_ hw
          intro p hp1 hp2
          exact run_pool_frame pos step tl (i + 1) (step hd st).2 _ p
            (Or.inl (by omega))
      | succ j =>
          have hj2 : (run_pool pos step tl (i + 1) (step hd st).2
              (particle_update buf (28 * i) (pos (step hd st).1).1
                (pos (step hd st).1).2.1
                (pos (step hd st).1).2.2)).ps.get? j = some a := by
            simpa using hj
          have hb2 : 28 * ((i + 1) + tl.length) ≤
              (particle_update buf (28 * i) (pos (step hd st).1).1
                (pos (step hd st).1).2.1
                (pos (step hd st).1).2.2).length := by
            rw [particle_update_length]; omega
          have := ih (i + 1) (step hd st).2 _ hb2 j a hj2
          have hidx : i + (j + 1) = (i + 1) + j := by omega
          rw [hidx]
          exact this

lemma run_pool_st_inv {α σ : Type} (pos : α → ℚ × ℚ × ℚ)
    (step : α → σ → α × σ) (P : σ → Prop)
    (hstep : ∀ a st, P st → P (step a st).2) :
    ∀ (as : List α) (i : ℕ) (st : σ) (buf : List ℚ),
      P st → P (run_pool pos step as i st buf).st := by
  intro as
  induction as with
  | nil => intro i st buf h; exact h
  | cons a tl ih =>
      intro i st buf h
      simp only [run_pool]
      exact ih _ _ _ (hstep a st h)

lemma check_hit_bullets_length (ex ey : ℚ) :
    ∀ bs, (check_hit_bullets ex ey bs).2.length = bs.length := by
  intro bs
  induction bs with
  | nil => rfl
  | cons b tl ih =>
      simp only [check_hit_bullets]
      split_ifs
      · simp
      · simp [ih]

lemma check_hit_length (px py ex ey : ℚ) (bs : List BulletState) :
    (check_hit px py ex ey bs).2.length = bs.length := by
  unfold check_hit
  split_ifs
  · rfl
  · exact check_hit_bullets_length ex ey bs

lemma enemy_advance_gen_bullets_length (rst : EnemyState → EnemyState)
    (w h px py nap : ℚ) (e : EnemyState) (sd : ℚ)
    (bullets : List BulletState) (r : List ℚ) :
    (enemy_advance_gen rst w h px py nap e sd bullets r).2.2.1.length =
      bullets.length := by
  simp only [enemy_advance_gen]
  split_ifs <;> simp [check_hit_length]

lemma frame_pass_gen_sync (rst : EnemyState → EnemyState) (g : Game)
    (nap : ℚ) (r : List ℚ)
    (hlen : 28 * (g.stars.length + g.trails.length + g.players.length +
      g.enemies.length + g.bullets.length) ≤ g.vertices.length) :
    (∀ j a, (frame_pass_gen rst g nap r).1.stars.get? j = some a →
      sliceEq (frame_pass_gen rst g nap r).1.vertices j (star_pos a)) ∧
    (∀ j a, (frame_pass_gen rst g nap r).1.trails.get? j = some a →
      sliceEq (frame_pass_gen rst g nap r).1.vertices (g.stars.length + j)
        (trail_pos a)) ∧
    (∀ j a, (frame_pass_gen rst g nap r).1.players.get? j = some a →
      sliceEq (frame_pass_gen rst g nap r).1.vertices
        (g.stars.length + g.trails.length + j) (player_pos a)) ∧
    (∀ j a, (frame_pass_gen rst g nap r).1.enemies.get? j = some a →
      sliceEq (frame_pass_gen rst g nap r).1.vertices
        (g.stars.length + g.trails.length + g.players.length + j)
        (enemy_pos a)) ∧
    (∀ j a, (frame_pass_gen rst g nap r).1.bullets.get? j = some a →
      sliceEq (frame_pass_gen rst g nap r).1.vertices
        (g.stars.length + g.trails.length + g.players.length +
          g.enemies.length + j) (bullet_pos a)) := by
  set nS := g.stars.length with hnS
  set nT := g.trails.length with hnT
  set nP := g.players.length with hnP
  set nE := g.enemies.length with hnE
  set o1 := run_pool star_pos (star_step g.width g.height nap)
    g.stars 0 r g.vertices with ho1
  set o2 := run_pool trail_pos (trail_step g.player_x g.player_y nap)
    g.trails nS o1.st o1.buf with ho2
  set o3 := run_pool player_pos (player_step g.player_x g.player_y)
    g.players (nS + nT) () o2.buf with ho3
  set o4 := run_pool enemy_pos
    (enemy_step_gen rst g.width g.height g.player_x g.player_y nap)
    g.enemies (nS + nT + nP) (g.spawn_delay, g.bullets, o2.st) o3.buf
    with ho4
  set o5 := run_pool bullet_pos
    (bullet_step g.width g.player_x g.player_y g.firing nap)
    o4.st.2.1 (nS + nT + nP + nE) g.fire_delay o4.buf with ho5
  have hfp : frame_pass_gen rst g nap r =
      ({ g with
          stars := o1.ps
          trails := o2.ps
          players := o3.ps
          enemies := o4.ps
          bullets := o5.ps
          spawn_delay := o4.st.1
          fire_delay := o5.st
          vertices := o5.buf }, o4.st.2.2) := rfl
  have hb1 : o1.buf.length = g.vertices.length := by
    rw [ho1]; exact run_pool_buf_length _ _ _ _ _ _
  have hb2 : o2.buf.length = g.vertices.length := by
    rw [ho2, run_pool_buf_length]; exact hb1
  have hb3 : o3.buf.length = g.vertices.length := by
    rw [ho3, run_pool_buf_length]; exact hb2
  have hb4 : o4.buf.length = g.vertices.length := by
    rw [ho4, run_pool_buf_length]; exact hb3
  have hp1 : o1.ps.length = nS := by
    rw [ho1]; exact run_pool_ps_length _ _ _ _ _ _
  have hp2 : o2.ps.length = nT := by
    rw [ho2]; exact run_pool_ps_length _ _ _ _ _ _
  have hp3 : o3.ps.length = nP := by
    rw [ho3]; exact run_pool_ps_length _ _ _ _ _ _
  have hp4 : o4.ps.length = nE := by
    rw [ho4]; exact run_pool_ps_length _ _ _ _ _ _
  have hblen : o4.st.2.1.length = g.bullets.length := by
    rw [ho4]
    exact run_pool_st_inv enemy_pos
      (enemy_step_gen rst g.width g.height g.player_x g.player_y nap)
      (fun st => st.2.1.length = g.bullets.length)
      (fun a st h => by
        simp only [enemy_step_gen]
        rw [enemy_advance_gen_bullets_length]
        exact h)
      g.enemies (nS + nT + nP) (g.spawn_delay, g.bullets, o2.st) o3.buf rfl
  have hstars : ∀ j a, o1.ps.get? j = some a →
      sliceEq o5.buf j (star_pos a) := by
    intro j a hj
    obtain ⟨hjl, -⟩ := List.get?_eq_some.1 hj
    have hjlt : j < nS := by omega
    rw [ho1] at hj
    have h1 := run_pool_slices star_pos (star_step g.width g.height nap)
      g.stars 0 r g.vertices (by omega) j a hj
    rw [← ho1] at h1
    have h1b : sliceEq o1.buf j (star_pos a) := by
      have hz : 0 + j = j := by omega
      rwa [hz] at h1
    have h2 : sliceEq o2.buf j (star_pos a) := by
      refine sliceEq_of_agree _ _ _ _ ?_ h1b
      intro p hpl hpu
      rw [ho2]
      exact run_pool_frame _ _ g.trails nS o1.st o1.buf p (Or.inl (by omega))
    have h3 : sliceEq o3.buf j (star_pos a) := by
      refine sliceEq_of_agree _ _ _ _ ?_ h2
      intro p hpl hpu
      rw [ho3]
      exact run_pool_frame _ _ g.players (nS + nT) () o2.buf p
        (Or.inl (by omega))
    have h4 : sliceEq o4.buf j (star_pos a) := by
      refine sliceEq_of_agree _ _ _ _ ?_ h3
      intro p hpl hpu
      rw [ho4]
      exact run_pool_frame _ _ g.enemies (nS + nT + nP) _ o3.buf p
        (Or.inl (by omega))
    refine sliceEq_of_agree _ _ _ _ ?_ h4
    intro p hpl hpu
    rw [ho5]
    exact run_pool_frame _ _ o4.st.2.1 (nS + nT + nP + nE) g.fire_delay
      o4.buf p (Or.inl (by omega))
  have htrails : ∀ j a, o2.ps.get? j = some a →
      sliceEq o5.buf (nS + j) (trail_pos a) := by
    intro j a hj
    obtain ⟨hjl, -⟩ := List.get?_eq_some.1 hj
    have hjlt : j < nT := by omega
    rw [ho2] at hj
    have h1 := run_pool_slices trail_pos
      (trail_step g.player_x g.player_y nap) g.trails nS o1.st o1.buf
      (by omega) j a hj
    rw [← ho2] at h1
    have h3 : sliceEq o3.buf (nS + j) (trail_pos a) := by
      refine sliceEq_of_agree _ _ _ _ ?_ h1
      intro p hpl hpu
      rw [ho3]
      exact run_pool_frame _ _ g.players (nS + nT) () o2.buf p
        (Or.inl (by omega))
    have h4 : sliceEq o4.buf (nS + j) (trail_pos a) := by
      refine sliceEq_of_agree _ _ _ _ ?_ h3
      intro p hpl hpu
      rw [ho4]
      exact run_pool_frame _ _ g.enemies (nS + nT + nP) _ o3.buf p
        (Or.inl (by omega))
    refine sliceEq_of_agree _ _ _ _ ?_ h4
    intro p hpl hpu
    rw [ho5]
    exact run_pool_frame _ _ o4.st.2.1 (nS + nT + nP + nE) g.fire_delay
      o4.buf p (Or.inl (by omega))
  have hplayers : ∀ j a, o3.ps.get? j = some a →
      sliceEq o5.buf (nS + nT + j) (player_pos a) := by
    intro j a hj
    obtain ⟨hjl, -⟩ := List.get?_eq_some.1 hj
    have hjlt : j < nP := by omega
    rw [ho3] at hj
    have h1 := run_pool_slices player_pos
      (player_step g.player_x g.player_y) g.players (nS + nT) () o2.buf
      (by omega) j a hj
    rw [← ho3] at h1
    have h4 : sliceEq o4.buf (nS + nT + j) (player_pos a) := by
      refine sliceEq_of_agree _ _ _ _ ?_ h1
      intro p hpl hpu
      rw [ho4]
      exact run_pool_frame _ _ g.enemies (nS + nT + nP) _ o3.buf p
        (Or.inl (by omega))
    refine sliceEq_of_agree _ _ _ _ ?_ h4
    intro p hpl hpu
    rw [ho5]
    exact run_pool_frame _ _ o4.st.2.1 (nS + nT + nP + nE) g.fire_delay
      o4.buf p (Or.inl (by omega))
  have henemies : ∀ j a, o4.ps.get? j = some a →
      sliceEq o5.buf (nS + nT + nP + j) (enemy_pos a) := by
    intro j a hj
    obtain ⟨hjl, -⟩ := List.get?_eq_some.1 hj
    have hjlt : j < nE := by omega
    rw [ho4] at hj
    have h1 := run_pool_slices enemy_pos
      (enemy_step_gen rst g.width g.height g.player_x g.player_y nap)
      g.enemies (nS + nT + nP) (g.spawn_delay, g.bullets, o2.st) o3.buf
      (by omega) j a hj
    rw [← ho4] at h1
    refine sliceEq_of_agree _ _ _ _ ?_ h1
    intro p hpl hpu
    rw [ho5]
    exact run_pool_frame _ _ o4.st.2.1 (nS + nT + nP + nE) g.fire_delay
      o4.buf p (Or.inl (by omega))
  have hbullets : ∀ j a, o5.ps.get? j = some a →
      sliceEq o5.buf (nS + nT + nP + nE + j) (bullet_pos a) := by
    intro j a hj
    rw [ho5] at hj
    have h1 := run_pool_slices bullet_pos
      (bullet_step g.width g.player_x g.player_y g.firing nap)
      o4.st.2.1 (nS + nT + nP + nE) g.fire_delay o4.buf
      (by omega) j a hj
    rw [← ho5] at h1
    exact h1
  rw [hfp]
  exact ⟨hstars, htrails, hplayers, henemies, hbullets⟩

/-- C3: after a complete `update_glsl` pass (for every particle in pool
order, `advance(dt)` then `update()`), every particle's buffer slice holds
exactly its current `(x, y, size)` in the first three scalars of each of its
4 vertex records — the buffer is never stale, including when an Enemy's
collision check resets a Bullet during the same pass (bullets sit after
enemies in pool order, so the consumed bullet's own `update` still runs). -/
theorem c3_buffer_never_stale (g : Game) (nap : ℚ) (r : List ℚ)
    (hlen : 28 * (g.stars.length + g.trails.length + g.players.length +
      g.enemies.length + g.bullets.length) ≤ g.vertices.length) :
    (∀ j a, (frame_pass g nap r).1.stars.get? j = some a →
      sliceEq (frame_pass g nap r).1.vertices j (star_pos a)) ∧
    (∀ j a, (frame_pass g nap r).1.trails.get? j = some a →
      sliceEq (frame_pass g nap r).1.vertices (g.stars.length + j)
        (trail_pos a)) ∧
    (∀ j a, (frame_pass g nap r).1.players.get? j = some a →
      sliceEq (frame_pass g nap r).1.vertices
        (g.stars.length + g.trails.length + j) (player_pos a)) ∧
    (∀ j a, (frame_pass g nap r).1.enemies.get? j = some a →
      sliceEq (frame_pass g nap r).1.vertices
        (g.stars.length + g.trails.length + g.players.length + j)
        (enemy_pos a)) ∧
    (∀ j a, (frame_pass g nap r).1.bullets.get? j = some a →
      sliceEq (frame_pass g nap r).1.vertices
        (g.stars.length + g.trails.length + g.players.length +
          g.enemies.length + j) (bullet_pos a)) :=
  frame_pass_gen_sync (enemy_reset false) g nap r hlen

/-- Witness for C3 at the concrete `sampleGame`. -/
theorem c3_buffer_never_stale_witness :
    (∀ j a, (frame_pass sampleGame (1 / 60) []).1.stars.get? j = some a →
      sliceEq (frame_pass sampleGame (1 / 60) []).1.vertices j
        (star_pos a)) ∧
    (∀ j a, (frame_pass sampleGame (1 / 60) []).1.trails.get? j = some a →
      sliceEq (frame_pass sampleGame (1 / 60) []).1.vertices
        (sampleGame.stars.length + j) (trail_pos a)) ∧
    (∀ j a, (frame_pass sampleGame (1 / 60) []).1.players.get? j = some a →
      sliceEq (frame_pass sampleGame (1 / 60) []).1.vertices
        (sampleGame.stars.length + sampleGame.trails.length + j)
        (player_pos a)) ∧
    (∀ j a, (frame_pass sampleGame (1 / 60) []).1.enemies.get? j = some a →
      sliceEq (frame_pass sampleGame (1 / 60) []).1.vertices
        (sampleGame.stars.length + sampleGame.trails.length +
          sampleGame.players.length + j) (enemy_pos a)) ∧
    (∀ j a, (frame_pass sampleGame (1 / 60) []).1.bullets.get? j = some a →
      sliceEq (frame_pass sampleGame (1 / 60) []).1.vertices
        (sampleGame.stars.length + sampleGame.trails.length +
          sampleGame.players.length + sampleGame.enemies.length + j)
        (bullet_pos a)) :=
  c3_buffer_never_stale sampleGame (1 / 60) [] (by simp [sampleGame])

/-- C4: `Particle.update` writes only the first three scalars of the 4
vertex records of its own slice (every position outside that write set reads
back unchanged) and preserves the buffer length; and a full frame pass
never changes the vertex-array length nor the index array at all. -/
theorem c4_update_writes_only_live_fields (buf : List ℚ) (base : ℕ)
    (x y s : ℚ) (p : ℕ)
    (hp : ∀ k, k < 4 → ∀ j, j < 3 → p ≠ base + 7 * k + j)
    (g : Game) (nap : ℚ) (r : List ℚ) :
    (particle_update buf base x y s).get? p = buf.get? p ∧
    (particle_update buf base x y s).length = buf.length ∧
    (frame_pass g nap r).1.vertices.length = g.vertices.length ∧
    (frame_pass g nap r).1.indices = g.indices := by
  refine ⟨particle_update_get?_other buf base x y s p hp,
    particle_update_length buf base x y s, ?_, rfl⟩
  show (frame_pass_gen (enemy_reset false) g nap r).1.vertices.length = _
  simp only [frame_pass_gen]
  simp only [run_pool_buf_length]

/-- Witness for C4 at concrete inputs (`p = 3` is the first local-offset
scalar, outside the write set of a particle based at `0`). -/
theorem c4_update_writes_only_live_fields_witness :
    (particle_update (List.replicate 28 0) 0 1 2 3).get? 3 =
      (List.replicate 28 (0 : ℚ)).get? 3 ∧
    (particle_update (List.replicate 28 0) 0 1 2 3).length =
      (List.replicate 28 (0 : ℚ)).length ∧
    (frame_pass sampleGame (1 / 60) []).1.vertices.length =
      sampleGame.vertices.length ∧
    (frame_pass sampleGame (1 / 60) []).1.indices = sampleGame.indices :=
  c4_update_writes_only_live_fields (List.replicate 28 0) 0 1 2 3 3
    (by decide) sampleGame (1 / 60) []

lemma enemyRel_refl (e : EnemyState) : EnemyRel e e :=
  ⟨rfl, rfl, rfl, rfl, fun _ => rfl⟩

lemma enemy_reset_pair_rel (e : EnemyState) :
    EnemyRel (enemy_reset false e) (enemy_reset_v0 false e) := by
  refine ⟨rfl, rfl, rfl, rfl, ?_⟩
  intro hc
  simp [enemy_reset] at hc

lemma enemy_advance_pair_rel (w h px py nap : ℚ) (e e2 : EnemyState)
    (sd : ℚ) (bullets : List BulletState) (r : List ℚ)
    (hrel : EnemyRel e e2) :
    EnemyRel (enemy_advance w h px py nap e sd bullets r).1
      (enemy_advance_v0 w h px py nap e2 sd bullets r).1 ∧
    (enemy_advance w h px py nap e sd bullets r).2 =
      (enemy_advance_v0 w h px py nap e2 sd bullets r).2 := by
  obtain ⟨ea, ex, ey, es, ev⟩ := e
  obtain ⟨fa, fx, fy, fs, fv⟩ := e2
  obtain ⟨hx, hy, hs, ha, hv⟩ := hrel
  simp only at hx hy hs ha hv
  subst hx
  subst hy
  subst hs
  subst ha
  cases ea with
  | true =>
      have hveq : ev = fv := hv rfl
      subst hveq
      simp only [enemy_advance, enemy_advance_v0, enemy_advance_gen,
        if_true]
      split_ifs <;>
        first
          | exact ⟨enemy_reset_pair_rel _, rfl⟩
          | exact ⟨enemyRel_refl _, rfl⟩
  | false =>
      simp only [enemy_advance, enemy_advance_v0, enemy_advance_gen,
        Bool.false_eq_true, if_false]
      split_ifs <;>
        first
          | exact ⟨enemyRel_refl _, rfl⟩
          | exact ⟨⟨rfl, rfl, rfl, rfl, fun hc => by simp at hc⟩, rfl⟩

lemma enemy_step_pair_rel (w h px py nap : ℚ) (e e2 : EnemyState)
    (st : ℚ × List BulletState × List ℚ) (hrel : EnemyRel e e2) :
    EnemyRel (enemy_step_gen (enemy_reset false) w h px py nap e st).1
      (enemy_step_gen (enemy_reset_v0 false) w h px py nap e2 st).1 ∧
    (enemy_step_gen (enemy_reset false) w h px py nap e st).2 =
      (enemy_step_gen (enemy_reset_v0 false) w h px py nap e2 st).2 := by
  have hpair := enemy_advance_pair_rel w h px py nap e e2 st.1 st.2.1
    st.2.2 hrel
  simp only [enemy_advance, enemy_advance_v0] at hpair
  simp only [enemy_step_gen]
  exact ⟨hpair.1, by rw [hpair.2]⟩

lemma run_pool_rel {α σ : Type} (pos : α → ℚ × ℚ × ℚ)
    (f f2 : α → σ → α × σ) (R : α → α → Prop)
    (hpos : ∀ a a2, R a a2 → pos a = pos a2)
    (hstep : ∀ a a2 st, R a a2 →
      R (f a st).1 (f2 a2 st).1 ∧ (f a st).2 = (f2 a2 st).2) :
    ∀ (as as2 : List α) (i : ℕ) (st : σ) (buf : List ℚ),
      List.Forall₂ R as as2 →
      List.Forall₂ R (run_pool pos f as i st buf).ps
        (run_pool pos f2 as2 i st buf).ps ∧
      (run_pool pos f as i st buf).st =
        (run_pool pos f2 as2 i st buf).st ∧
      (run_pool pos f as i st buf).buf =
        (run_pool pos f2 as2 i st buf).buf := by
  intro as as2 i st buf hf
  induction hf generalizing i st buf with
  | nil => exact ⟨List.Forall₂.nil, rfl, rfl⟩
  | cons hR htl ih =>
      rename_i a a2 tl tl2
      simp only [run_pool]
      have hs := hstep a a2 st hR
      have hposeq := hpos _ _ hs.1
      rw [← hs.2, ← hposeq]
      obtain ⟨ihf, ihst, ihbuf⟩ := ih (i + 1) (f a st).2
        (particle_update buf (28 * i) (pos (f a st).1).1
          (pos (f a st).1).2.1 (pos (f a st).1).2.2)
      exact ⟨List.Forall₂.cons hs.1 ihf, ihst, ihbuf⟩

lemma frame_pass_pair_rel (g g2 : Game) (nap : ℚ) (r : List ℚ)
    (hrel : GameRel g g2) :
    GameRel (frame_pass g nap r).1 (frame_pass_v0 g2 nap r).1 ∧
    (frame_pass g nap r).2 = (frame_pass_v0 g2 nap r).2 := by
  obtain ⟨w, h, px, py, fi, fd, sd, S, T, P, E, B, V, I⟩ := g
  obtain ⟨w2, h2, px2, py2, fi2, fd2, sd2, S2, T2, P2, E2, B2, V2, I2⟩ := g2
  obtain ⟨hw, hh, hpx, hpy, hfi, hfd, hsd, hS, hT, hP, hE, hB, hV, hI⟩ :=
    hrel
  simp only at hw hh hpx hpy hfi hfd hsd hS hT hP hE hB hV hI
  subst hw
  subst hh
  subst hpx
  subst hpy
  subst hfi
  subst hfd
  subst hsd
  subst hS
  subst hT
  subst hP
  subst hB
  subst hV
  subst hI
  have hlenE : E.length = E2.length := hE.length_eq
  set o1 := run_pool star_pos (star_step w h nap) S 0 r V with ho1
  set o2 := run_pool trail_pos (trail_step px py nap) T S.length o1.st
    o1.buf with ho2
  set o3 := run_pool player_pos (player_step px py) P
    (S.length + T.length) () o2.buf with ho3
  set o4 := run_pool enemy_pos
    (enemy_step_gen (enemy_reset false) w h px py nap) E
    (S.length + T.length + P.length) (sd, B, o2.st) o3.buf with ho4
  set o4b := run_pool enemy_pos
    (enemy_step_gen (enemy_reset_v0 false) w h px py nap) E2
    (S.length + T.length + P.length) (sd, B, o2.st) o3.buf with ho4b
  set o5 := run_pool bullet_pos (bullet_step w px py fi nap) o4.st.2.1
    (S.length + T.length + P.length + E.length) fd o4.buf with ho5
  set o5b := run_pool bullet_pos (bullet_step w px py fi nap) o4b.st.2.1
    (S.length + T.length + P.length + E2.length) fd o4b.buf with ho5b
  have hfpL : frame_pass ⟨w, h, px, py, fi, fd, sd, S, T, P, E, B, V, I⟩
      nap r =
      ({ width := w, height := h, player_x := px, player_y := py,
         firing := fi, fire_delay := o5.st, spawn_delay := o4.st.1,
         stars := o1.ps, trails := o2.ps, players := o3.ps,
         enemies := o4.ps, bullets := o5.ps, vertices := o5.buf,
         indices := I }, o4.st.2.2) := rfl
  have hfpR : frame_pass_v0
      ⟨w, h, px, py, fi, fd, sd, S, T, P, E2, B, V, I⟩ nap r =
      ({ width := w, height := h, player_x := px, player_y := py,
         firing := fi, fire_delay := o5b.st, spawn_delay := o4b.st.1,
         stars := o1.ps, trails := o2.ps, players := o3.ps,
         enemies := o4b.ps, bullets := o5b.ps, vertices := o5b.buf,
         indices := I }, o4b.st.2.2) := rfl
  have hrun := run_pool_rel enemy_pos
    (enemy_step_gen (enemy_reset false) w h px py nap)
    (enemy_step_gen (enemy_reset_v0 false) w h px py nap)
    EnemyRel
    (fun a a2 hr => by
      simp only [enemy_pos]
      rw [hr.1, hr.2.1, hr.2.2.1])
    (fun a a2 st hr => enemy_step_pair_rel w h px py nap a a2 st hr)
    E E2 (S.length + T.length + P.length) (sd, B, o2.st) o3.buf hE
  rw [← ho4, ← ho4b] at hrun
  obtain ⟨hps, hst, hbuf⟩ := hrun
  have h5eq : o5 = o5b := by
    rw [ho5, ho5b, hst, hbuf, hlenE]
  rw [hfpL, hfpR]
  refine ⟨⟨rfl, rfl, rfl, rfl, rfl, ?_, ?_, rfl, rfl, rfl, ?_, ?_, ?_,
    rfl⟩, ?_⟩
  · rw [h5eq]
  · rw [hst]
  · exact hps
  · rw [h5eq]
  · rw [h5eq]
  · rw [hst]

lemma game_update_pair_rel (g g2 : Game) (mouse : ℚ × ℚ) (nap : ℚ)
    (r : List ℚ) (hrel : GameRel g g2) :
    GameRel (game_update_glsl g mouse nap r).1
      (game_update_glsl_v0 g2 mouse nap r).1 ∧
    (game_update_glsl g mouse nap r).2 =
      (game_update_glsl_v0 g2 mouse nap r).2 := by
  obtain ⟨w, h, px, py, fi, fd, sd, S, T, P, E, B, V, I⟩ := g
  obtain ⟨w2, h2, px2, py2, fi2, fd2, sd2, S2, T2, P2, E2, B2, V2, I2⟩ := g2
  obtain ⟨hw, hh, hpx, hpy, hfi, hfd, hsd, hS, hT, hP, hE, hB, hV, hI⟩ :=
    hrel
  simp only at hw hh hpx hpy hfi hfd hsd hS hT hP hE hB hV hI
  subst hw
  subst hh
  subst hpx
  subst hpy
  subst hfi
  subst hfd
  subst hsd
  subst hS
  subst hT
  subst hP
  subst hB
  subst hV
  subst hI
  simp only [game_update_glsl, game_update_glsl_v0, game_update_glsl_gen]
  cases fi with
  | true =>
      exact frame_pass_pair_rel
        ⟨w, h, mouse.1, mouse.2, true, fd - nap, sd - nap, S, T, P, E, B,
          V, I⟩
        ⟨w, h, mouse.1, mouse.2, true, fd - nap, sd - nap, S, T, P, E2, B,
          V, I⟩
        nap r
        ⟨rfl, rfl, rfl, rfl, rfl, rfl, rfl, rfl, rfl, rfl, hE, rfl, rfl,
          rfl⟩
  | false =>
      exact frame_pass_pair_rel
        ⟨w, h, mouse.1, mouse.2, false, fd, sd - nap, S, T, P, E, B, V, I⟩
        ⟨w, h, mouse.1, mouse.2, false, fd, sd - nap, S, T, P, E2, B, V, I⟩
        nap r
        ⟨rfl, rfl, rfl, rfl, rfl, rfl, rfl, rfl, rfl, rfl, hE, rfl, rfl,
          rfl⟩

lemma run_frames_pair_rel (frames : List ((ℚ × ℚ) × ℚ)) :
    ∀ (g g2 : Game) (r : List ℚ), GameRel g g2 →
      GameRel (run_frames frames g r).1 (run_frames_v0 frames g2 r).1 ∧
      (run_frames frames g r).2 = (run_frames_v0 frames g2 r).2 := by
  induction frames with
  | nil => intro g g2 r hrel; exact ⟨hrel, rfl⟩
  | cons f fs ih =>
      intro g g2 r hrel
      have hstep := game_update_pair_rel g g2 f.1 f.2 r hrel
      have hL : run_frames (f :: fs) g r =
          run_frames fs (game_update_glsl g f.1 f.2 r).1
            (game_update_glsl g f.1 f.2 r).2 := rfl
      have hR : run_frames_v0 (f :: fs) g2 r =
          run_frames_v0 fs (game_update_glsl_v0 g2 f.1 f.2 r).1
            (game_update_glsl_v0 g2 f.1 f.2 r).2 := rfl
      rw [hL, hR, hstep.2]
      exact ih (game_update_glsl g f.1 f.2 r).1
        (game_update_glsl_v0 g2 f.1 f.2 r).1
        (game_update_glsl_v0 g2 f.1 f.2 r).2 hstep.1

/-- C10: the dead local `v = 0` in `Enemy.reset` is observationally
harmless: `v` is read only while the Enemy is active, and every activation
assigns `v` before the Enemy becomes active again.  Hence from `GameRel`
initial states (equal except possibly inactive enemies' `v`, e.g. the same
state) the source program and the variant whose reset assigns the instance
field `v = 0` produce, over any list of frames, related states with equal
vertex buffers, equal `(x, y, active)` enemy trajectories, and identical
oracle consumption. -/
theorem c10_reset_v_slip_harmless (g g2 : Game) (hrel : GameRel g g2)
    (frames : List ((ℚ × ℚ) × ℚ)) (r : List ℚ) :
    GameRel (run_frames frames g r).1 (run_frames_v0 frames g2 r).1 ∧
    (run_frames frames g r).1.vertices =
      (run_frames_v0 frames g2 r).1.vertices ∧
    List.Forall₂ (fun e e2 : EnemyState =>
        e.x = e2.x ∧ e.y = e2.y ∧ e.active = e2.active)
      (run_frames frames g r).1.enemies
      (run_frames_v0 frames g2 r).1.enemies ∧
    (run_frames frames g r).2 = (run_frames_v0 frames g2 r).2 := by
  obtain ⟨h1, h2⟩ := run_frames_pair_rel frames g g2 r hrel
  obtain ⟨hw, hh, hpx, hpy, hfi, hfd, hsd, hS, hT, hP, hE, hB, hV, hI⟩ := h1
  refine ⟨⟨hw, hh, hpx, hpy, hfi, hfd, hsd, hS, hT, hP, hE, hB, hV, hI⟩,
    hV, ?_, h2⟩
  exact hE.imp (fun a b hr => ⟨hr.1, hr.2.1, hr.2.2.2.1⟩)

/-- Witness for C10: the source program and the variant, started from the
same concrete `sampleGame`, stay related over one frame. -/
theorem c10_reset_v_slip_harmless_witness :
    GameRel (run_frames [((3, 4), 1 / 60)] sampleGame []).1
      (run_frames_v0 [((3, 4), 1 / 60)] sampleGame []).1 ∧
    (run_frames [((3, 4), 1 / 60)] sampleGame []).1.vertices =
      (run_frames_v0 [((3, 4), 1 / 60)] sampleGame []).1.vertices ∧
    List.Forall₂ (fun e e2 : EnemyState =>
        e.x = e2.x ∧ e.y = e2.y ∧ e.active = e2.active)
      (run_frames [((3, 4), 1 / 60)] sampleGame []).1.enemies
      (run_frames_v0 [((3, 4), 1 / 60)] sampleGame []).1.enemies ∧
    (run_frames [((3, 4), 1 / 60)] sampleGame []).2 =
      (run_frames_v0 [((3, 4), 1 / 60)] sampleGame []).2 :=
  c10_reset_v_slip_harmless sampleGame sampleGame
    ⟨rfl, rfl, rfl, rfl, rfl, rfl, rfl, rfl, rfl, rfl,
      List.Forall₂.cons ⟨rfl, rfl, rfl, rfl, fun _ => rfl⟩
        List.Forall₂.nil,
      rfl, rfl, rfl⟩
    [((3, 4), 1 / 60)] []

end Shmup
